import Mathlib

/-!
# Verification of the LUKS-TOKEN self-destruct system

Shallow embedding of `LUKS-TOKEN.py` (class `LUKSTokenSystem`): the fixed
path configuration, the timer-selection menu, the generated self-destruct
bash script and its cleanup function, the manual `cleanup_on_exit` path,
the passphrase unlock-and-mount loop, the download progress hook, the
file-selection menu, and the top-level `run`/`main` exit behaviour.
-/

namespace LUKSToken

/-! ## Fixed configuration (constructor `__init__`, lines 17-23) -/

/-- `self.ramdisk_path = "/tmp/luks_ramdisk"`. -/
def ramdisk_path : String := "/tmp/luks_ramdisk"

/-- `self.luks_file = "/tmp/LUKS-TOKEN-2MB.img"`. -/
def luks_file : String := "/tmp/LUKS-TOKEN-2MB.img"

/-- `self.mount_point = "/tmp/LUKS-TOKEN-2MB"`. -/
def mount_point : String := "/tmp/LUKS-TOKEN-2MB"

/-- Size in bytes of the 2 MB encrypted image (`LUKS-TOKEN-2MB.img`,
2 MiB, matching the `dd bs=1M count=2` overwrite in the destruct script). -/
def luks_image_size_bytes : Nat := 2 * 1024 * 1024

/-- Python's `str.strip()`: remove leading and trailing whitespace. -/
def pyStrip (s : String) : String :=
  ⟨(((s.data.dropWhile Char.isWhitespace).reverse.dropWhile
      Char.isWhitespace).reverse)⟩

/-! ## Timer selection menu (`get_timer_selection`, lines 73-98) -/

/-- The `timer_map` dictionary of `get_timer_selection` (lines 83-87):
maps the menu choice string to (seconds, description). -/
def timer_map (choice : String) : Option (Nat × String) :=
  if choice = "1" then some (60, "1 minute")
  else if choice = "2" then some (300, "5 minutes")
  else if choice = "3" then some (600, "10 minutes")
  else none

/-- `get_timer_selection` reads inputs until a valid choice is entered.
Each list entry is one `input()` result; `none` stands for a
`KeyboardInterrupt` at the prompt, which the code turns into `sys.exit(1)`
(lines 96-98), modelled as returning `none`.  An exhausted input list is
also modelled as `none` (the loop would otherwise block forever). -/
def get_timer_selection : List (Option String) → Option Nat
  | [] => none
  | none :: _ => none
  | some raw :: rest =>
    match timer_map (pyStrip raw) with
    | some (seconds, _desc) => some seconds
    | none => get_timer_selection rest

/-! ## The generated destruct script (`create_destruct_script`, lines 100-151) -/

/-- `failsafe_timer = timer_seconds + 180` (line 103). -/
def failsafe_timer (timer_seconds : Nat) : Nat := timer_seconds + 180

/-- The timing data of the generated destruct script: the primary timer
(line 145, `sleep {timer_seconds}`) and the failsafe timer (line 149,
`sleep {failsafe_timer}`). -/
structure DestructScript where
  primary_delay : Nat
  failsafe_delay : Nat
deriving Repr, DecidableEq

/-- `create_destruct_script(timer_seconds)`: the script it writes arms a
primary timer at `timer_seconds` and a failsafe at `timer_seconds + 180`. -/
def create_destruct_script (timer_seconds : Nat) : DestructScript :=
  { primary_delay := timer_seconds, failsafe_delay := failsafe_timer timer_seconds }

/-- The two background trigger delays spawned by the generated script, in
the order they are launched (lines 145 and 149); both are launched
unconditionally with `&`. -/
def destruct_triggers (timer_seconds : Nat) : List Nat :=
  [timer_seconds, failsafe_timer timer_seconds]

/-! ## External system state touched by cleanup -/

/-- The mutable OS state the cleanup code observes and changes:
whether `mount_point` is a mountpoint, whether `/dev/mapper/luks_token`
exists, whether the image file exists, whether the tmpfs RAM disk is
mounted, whether its directory exists, and the files stored on it. -/
structure SysState where
  volumeMounted : Bool
  mapperOpen : Bool
  imageExists : Bool
  storeMounted : Bool
  storeDirExists : Bool
  storeFiles : List String
deriving Repr, DecidableEq

/-- Observable filesystem-destroying events, in the order they happen. -/
inductive FsEvent where
  /-- `umount "$MOUNT_POINT"` succeeded. -/
  | unmountVolume
  /-- `cryptsetup close luks_token` succeeded. -/
  | closeMapper
  /-- `dd if=/dev/urandom of="$LUKS_FILE"` wrote `bytes` random bytes. -/
  | overwriteImage (bytes : Nat)
  /-- the image file was removed (`rm -f` / `os.remove`). -/
  | deleteImage
  /-- one RAM-disk file was overwritten with `bytes` random bytes. -/
  | overwriteStoreFile (name : String) (bytes : Nat)
  /-- `umount "$RAMDISK"` succeeded. -/
  | unmountStore
  /-- `rmdir "$RAMDISK"` succeeded. -/
  | removeStoreDir
deriving Repr, DecidableEq

/-- Bytes written by `dd if=/dev/urandom of="$LUKS_FILE" bs=1M count=2`
(line 130). -/
def dd_image_bytes : Nat := 2 * 1024 * 1024

/-- Bytes written per RAM-disk file by
`dd if=/dev/urandom of={} bs=1024 count=1024` (line 135). -/
def dd_store_bytes : Nat := 1024 * 1024

/-! ## The `cleanup_all` bash function (script lines 115-142)

The function body is six sequential command stanzas; bash runs them in
order with no `set -e`, every command's stderr discarded, so a failing
command never aborts the rest.  We embed the stanzas as data and give
them a failure-tolerant sequential interpreter, parametrised by an
oracle `fail` saying which stanzas spuriously fail. -/

/-- One stanza of the `cleanup_all` bash function, in source order. -/
inductive Cmd where
  /-- `if mountpoint -q "$MOUNT_POINT"; then umount "$MOUNT_POINT"; fi` (119-121). -/
  | umountVolumeIfMounted
  /-- `if [ -e /dev/mapper/luks_token ]; then cryptsetup close luks_token; fi` (124-126). -/
  | closeMapperIfExists
  /-- `if [ -f "$LUKS_FILE" ]; then dd if=/dev/urandom ...; rm -f "$LUKS_FILE"; fi` (129-132). -/
  | shredImageIfExists
  /-- `find "$RAMDISK" -type f -exec dd if=/dev/urandom of={} ... \;` (135). -/
  | shredStoreFiles
  /-- `umount "$RAMDISK"` (138). -/
  | umountStoreCmd
  /-- `rmdir "$RAMDISK"` (139). -/
  | rmdirStoreCmd
deriving Repr, DecidableEq

/-- The body of `cleanup_all`, stanzas in source order. -/
def cleanup_script : List Cmd :=
  [Cmd.umountVolumeIfMounted, Cmd.closeMapperIfExists, Cmd.shredImageIfExists,
   Cmd.shredStoreFiles, Cmd.umountStoreCmd, Cmd.rmdirStoreCmd]

/-- Effect of one stanza on the system state, with the events it emits.
A stanza marked failed by the oracle changes nothing (its error output is
discarded by `2>/dev/null`).  `cryptsetup close` can only succeed once the
filesystem on the mapping is no longer mounted; `rmdir` only succeeds on
an existing, unmounted (hence empty) directory. -/
def execCmd (fail : Cmd → Bool) (s : SysState) (c : Cmd) : SysState × List FsEvent :=
  if fail c then (s, []) else
  match c with
  | Cmd.umountVolumeIfMounted =>
    if s.volumeMounted then ({ s with volumeMounted := false }, [FsEvent.unmountVolume])
    else (s, [])
  | Cmd.closeMapperIfExists =>
    if s.mapperOpen && !s.volumeMounted then
      ({ s with mapperOpen := false }, [FsEvent.closeMapper])
    else (s, [])
  | Cmd.shredImageIfExists =>
    if s.imageExists then
      ({ s with imageExists := false },
       [FsEvent.overwriteImage dd_image_bytes, FsEvent.deleteImage])
    else (s, [])
  | Cmd.shredStoreFiles =>
    if s.storeMounted then
      (s, s.storeFiles.map fun n => FsEvent.overwriteStoreFile n dd_store_bytes)
    else (s, [])
  | Cmd.umountStoreCmd =>
    if s.storeMounted then
      ({ s with storeMounted := false, storeFiles := [] }, [FsEvent.unmountStore])
    else (s, [])
  | Cmd.rmdirStoreCmd =>
    if !s.storeMounted && s.storeDirExists then
      ({ s with storeDirExists := false }, [FsEvent.removeStoreDir])
    else (s, [])

/-- Sequential execution of a stanza list: bash with no `set -e` runs
every command of the sequence regardless of earlier failures. -/
def execCmds (fail : Cmd → Bool) : SysState → List Cmd → SysState × List FsEvent
  | s, [] => (s, [])
  | s, c :: cs =>
    let r₁ := execCmd fail s c
    let r₂ := execCmds fail r₁.1 cs
    (r₂.1, r₁.2 ++ r₂.2)

/-- Running the whole `cleanup_all` function under failure oracle `fail`. -/
def cleanup_all (fail : Cmd → Bool) (s : SysState) : SysState × List FsEvent :=
  execCmds fail s cleanup_script

/-- State after `cleanup_all` when every command behaves normally. -/
def cleanup_state (s : SysState) : SysState :=
  (cleanup_all (fun _ => false) s).1

/-- Event trace of `cleanup_all` when every command behaves normally. -/
def cleanup_trace (s : SysState) : List FsEvent :=
  (cleanup_all (fun _ => false) s).2

/-! ## The manual cleanup path (`cleanup_on_exit`, lines 265-277) -/

/-- `cleanup_on_exit`: unmount if `os.path.ismount`, attempt
`cryptsetup close luks_token` (with `check=False`), then — if the image
file exists — remove it with plain `os.remove` (lines 273-274), with no
overwrite beforehand. -/
def cleanup_on_exit (s : SysState) : SysState × List FsEvent :=
  let r₁ :=
    if s.volumeMounted then ({ s with volumeMounted := false }, [FsEvent.unmountVolume])
    else (s, [])
  let r₂ :=
    if r₁.1.mapperOpen && !r₁.1.volumeMounted then
      ({ r₁.1 with mapperOpen := false }, [FsEvent.closeMapper])
    else (r₁.1, [])
  let r₃ :=
    if r₂.1.imageExists then ({ r₂.1 with imageExists := false }, [FsEvent.deleteImage])
    else (r₂.1, [])
  (r₃.1, r₁.2 ++ r₂.2 ++ r₃.2)

/-! ## Overwrite-before-delete predicate over traces -/

/-- Is this event a full-length random overwrite of the image
(at least `luks_image_size_bytes` bytes)? -/
def full_image_overwrite : FsEvent → Bool
  | FsEvent.overwriteImage b => luks_image_size_bytes ≤ b
  | _ => false

/-- Scan a trace left to right; `seen` records whether a full-length image
overwrite has already happened.  Returns `false` exactly when some
`deleteImage` occurs with no earlier full-length overwrite. -/
def overwrite_scan (seen : Bool) : List FsEvent → Bool
  | [] => true
  | e :: rest =>
    match e with
    | FsEvent.deleteImage => seen && overwrite_scan seen rest
    | _ => overwrite_scan (seen || full_image_overwrite e) rest

/-- Every deletion of the image file in the trace is preceded by a
full-length random overwrite of the image. -/
def overwrite_precedes_delete (t : List FsEvent) : Prop :=
  overwrite_scan false t = true

instance (t : List FsEvent) : Decidable (overwrite_precedes_delete t) := by
  unfold overwrite_precedes_delete; infer_instance

/-! ## Running the destruct unit (script lines 144-150, `start_destruct_timer`) -/

/-- Semantics of the armed destruct unit at time `now` (seconds since
activation): each background trigger `(sleep delay && cleanup_all) &` is
an independent process; `alive i` says whether trigger `i` (0 = primary,
1 = failsafe) has not been killed.  Every surviving trigger whose delay
has elapsed runs the full `cleanup_all`. -/
def run_destruct_unit (timer_seconds : Nat) (alive : Nat → Bool) (now : Nat)
    (s : SysState) : SysState :=
  (((destruct_triggers timer_seconds).enum).filter
      (fun p => alive p.1 && decide (p.2 ≤ now))).foldl
    (fun st _ => cleanup_state st) s

/-! ## Unlock and mount (`mount_luks_volume`, lines 178-219) -/

/-- One invocation of the external `cryptsetup open` subprocess: its full
argument vector (line 192-194) and the bytes written to its standard
input by `proc.communicate(input=passphrase.encode())` (line 196). -/
structure UnlockCall where
  argv : List String
  stdin_data : String
deriving Repr, DecidableEq

/-- The subprocess launched per attempt:
`Popen(["cryptsetup", "open", self.luks_file, "luks_token"], stdin=PIPE, ...)`
followed by `communicate(input=passphrase.encode())`.  The argument vector
is a fixed list; the passphrase travels only on standard input. -/
def cryptsetup_open_call (image : String) (passphrase : String) : UnlockCall :=
  { argv := ["cryptsetup", "open", image, "luks_token"], stdin_data := passphrase }

/-- The interactive environment of the unlock loop: the passphrase the
operator types at prompt `i`, whether `cryptsetup` accepts a given
passphrase (its return code is 0), whether a `KeyboardInterrupt` hits
attempt `i` during `getpass`, and whether the subsequent `mount` of
`/dev/mapper/luks_token` succeeds. -/
structure UnlockEnv where
  entered : Nat → String
  accepts : String → Bool
  interrupted : Nat → Bool
  mountOk : Bool

/-- `max_attempts = 3` (line 185). -/
def max_attempts : Nat := 3

/-- The body of `for attempt in range(max_attempts)` (lines 186-219),
iterating over the remaining attempt indices.  Returns (mount success,
number of passphrase prompts shown, `cryptsetup open` calls issued).
A `KeyboardInterrupt` during the prompt returns `False` (lines 217-219).
A correct passphrase opens the device and proceeds to `mount` — whose
failure raises `CalledProcessError`, caught to return `False`
(lines 214-216), with no further passphrase retry.  A wrong passphrase
on the final attempt (`attempt == max_attempts - 1`) returns `False`
(lines 210-212); on an earlier attempt the loop re-prompts. -/
def mount_loop (env : UnlockEnv) : List Nat → Bool × Nat × List UnlockCall
  | [] => (false, 0, [])
  | attempt :: rest =>
    if env.interrupted attempt then
      (false, 1, [])
    else
      let passphrase := env.entered attempt
      let call := cryptsetup_open_call luks_file passphrase
      if env.accepts passphrase then
        (env.mountOk, 1, [call])
      else if attempt = max_attempts - 1 then
        (false, 1, [call])
      else
        let r := mount_loop env rest
        (r.1, r.2.1 + 1, call :: r.2.2)

/-- `mount_luks_volume` runs the attempt loop over
`range(max_attempts)` (line 186). -/
def mount_luks_volume (env : UnlockEnv) : Bool × Nat × List UnlockCall :=
  mount_loop env (List.range max_attempts)

/-! ## Download progress (`download_luks_volume`'s `progress_hook`, lines 59-63) -/

/-- `progress_hook(block_num, block_size, total_size)`: computes
`downloaded = block_num * block_size` and prints a percentage only when
`total_size > 0` (`urlretrieve` reports a negative total when the size is
unknown).  Returns the reported percentage, or `none` when nothing is
printed. -/
def progress_hook (block_num block_size : Nat) (total_size : Int) : Option ℚ :=
  let downloaded : Nat := block_num * block_size
  if 0 < total_size then
    some (((downloaded : ℚ) / (total_size : ℚ)) * 100)
  else
    none

/-- The sequence of percentages printed over a download in which
`urlretrieve` invokes the hook with block numbers `0, 1, ..., n-1` and a
fixed block size. -/
def reported_progress (block_size : Nat) (total_size : Int) (n : Nat) : List ℚ :=
  (List.range n).filterMap fun k => progress_hook k block_size total_size

/-! ## File menu (`display_file_menu`, lines 221-263) -/

/-- One interaction with the file menu: a `KeyboardInterrupt` at either
prompt, an invalid choice (loop continues without the second prompt), or
a viewed file followed by the answer to `View another file? (y/n)`. -/
inductive MenuAct where
  | interrupt
  | invalid (choice : String)
  | view (choice : String) (another : String)
deriving Repr, DecidableEq

/-- The `while True` loop of `display_file_menu`.  `Except.error ()`
would represent a `KeyboardInterrupt` escaping the function; the code
catches the interrupt inside the loop and `break`s (lines 261-263), so
every branch returns `Except.ok ()`.  An answer other than `y` to the
second prompt `break`s (lines 257-259). -/
def display_file_menu : List MenuAct → Except Unit Unit
  | [] => Except.ok ()
  | MenuAct.interrupt :: _ => Except.ok ()
  | MenuAct.invalid _ :: rest => display_file_menu rest
  | MenuAct.view _ another :: rest =>
    if (pyStrip another).toLower = "y" then display_file_menu rest
    else Except.ok ()

/-! ## Top-level flow (`run`, lines 279-329, and `main`, lines 331-335) -/

/-- The outcomes of every external step of one program execution:
the effective uid seen by `check_root`, success of RAM-disk creation,
of the download, the timer-menu inputs, success of writing the destruct
script, the unlock environment, success of launching the detached timer
process, and the file-menu interactions. -/
structure RunEnv where
  euid : Nat
  ramdiskOk : Bool
  downloadOk : Bool
  timerInputs : List (Option String)
  scriptWriteOk : Bool
  unlock : UnlockEnv
  timerStartOk : Bool
  menuActs : List MenuAct

/-- `run`: the pipeline of lines 284-319.  `Except.error 1` models
`sys.exit(1)` raised inside a step (`check_root` line 30,
`get_timer_selection` line 98); `Except.ok b` models `run` returning `b`.
Each failed step returns `False` immediately; if the menu's interrupt
ever escaped, `run`'s own handler (lines 321-323) would return `False`. -/
def run (env : RunEnv) : Except Nat Bool :=
  if env.euid ≠ 0 then Except.error 1
  else if !env.ramdiskOk then Except.ok false
  else if !env.downloadOk then Except.ok false
  else
    match get_timer_selection env.timerInputs with
    | none => Except.error 1
    | some _timer_seconds =>
      if !env.scriptWriteOk then Except.ok false
      else if !(mount_luks_volume env.unlock).1 then Except.ok false
      else if !env.timerStartOk then Except.ok false
      else
        match display_file_menu env.menuActs with
        | Except.error _ => Except.ok false
        | Except.ok _ => Except.ok true

/-- `main`: `sys.exit(0 if success else 1)` (line 335), with a
`sys.exit` raised inside `run` propagating its own code. -/
def main_exit (env : RunEnv) : Nat :=
  match run env with
  | Except.error code => code
  | Except.ok success => if success then 0 else 1

/-! ## Helper lemmas -/

theorem filterMap_some_eq_map {α β : Type} (g : α → β) (l : List α) :
    l.filterMap (fun a => some (g a)) = l.map g := by
  induction l with
  | nil => rfl
  | cons x xs ih => simp [List.filterMap_cons, ih]

/-- The file menu always returns normally: an interrupt at its prompts is
caught inside the loop and turned into `break` (lines 261-263). -/
theorem display_file_menu_ok (acts : List MenuAct) :
    display_file_menu acts = Except.ok () := by
  induction acts with
  | nil => rfl
  | cons a rest ih =>
    cases a with
    | interrupt => rfl
    | invalid c => simpa [display_file_menu] using ih
    | view c another =>
      by_cases h : (pyStrip another).toLower = "y" <;>
        simp [display_file_menu, h, ih]

/-! ## C2: failsafe deadline = primary deadline + 180 -/

/-- **C2.** For every primary timeout selectable in the default menu
(60, 300, 600 seconds via choices "1", "2", "3"), the destruct unit built
by `create_destruct_script` has its failsafe deadline equal to the primary
deadline plus exactly 180 seconds. -/
theorem C2_failsafe_deadline (choice : String) (secs : Nat) (desc : String)
    (h : timer_map choice = some (secs, desc)) :
    (create_destruct_script secs).failsafe_delay
      = (create_destruct_script secs).primary_delay + 180 ∧
    (secs = 60 ∨ secs = 300 ∨ secs = 600) := by
  refine ⟨rfl, ?_⟩
  unfold timer_map at h
  split at h
  · simp only [Option.some.injEq, Prod.mk.injEq] at h
    exact Or.inl h.1.symm
  · split at h
    · simp only [Option.some.injEq, Prod.mk.injEq] at h
      exact Or.inr (Or.inl h.1.symm)
    · split at h
      · simp only [Option.some.injEq, Prod.mk.injEq] at h
        exact Or.inr (Or.inr h.1.symm)
      · exact absurd h (by simp)

/-- Witness for C2 at menu choice "1" (60 seconds). -/
theorem C2_failsafe_deadline_witness :
    timer_map "1" = some (60, "1 minute") ∧
    ((create_destruct_script 60).failsafe_delay
        = (create_destruct_script 60).primary_delay + 180 ∧
      ((60 : Nat) = 60 ∨ (60 : Nat) = 300 ∨ (60 : Nat) = 600)) :=
  ⟨rfl, C2_failsafe_deadline "1" 60 "1 minute" rfl⟩

/-! ## C9: download progress reporting -/

/-- **C9.** For every download with positive known total size, the
sequence of percentages reported by `progress_hook` over increasing block
numbers is monotonically non-decreasing; when the total size is unknown
(non-positive), no percentage is reported at all. -/
theorem C9_progress_monotone (block_size : Nat) (total_size : Int) (n : Nat) :
    (total_size ≤ 0 → reported_progress block_size total_size n = []) ∧
    (0 < total_size →
      (reported_progress block_size total_size n).Pairwise (· ≤ ·)) := by
  constructor
  · intro h
    have h' : ¬ (0 : Int) < total_size := not_lt.mpr h
    simp [reported_progress, progress_hook, h']
  · intro h
    have hts : (0 : ℚ) < (total_size : ℚ) := by exact_mod_cast h
    have hmap : reported_progress block_size total_size n
        = (List.range n).map
            (fun k => ((k * block_size : Nat) : ℚ) / (total_size : ℚ) * 100) := by
      unfold reported_progress progress_hook
      simp only [h, if_true, if_pos]
      exact filterMap_some_eq_map _ _
    rw [hmap, List.pairwise_map]
    refine (List.pairwise_lt_range n).imp ?_
    intro a b hab
    have hnum : ((a * block_size : Nat) : ℚ) ≤ ((b * block_size : Nat) : ℚ) := by
      exact_mod_cast Nat.mul_le_mul_right block_size (Nat.le_of_lt hab)
    have hdiv := (div_le_div_iff_of_pos_right hts).mpr hnum
    exact mul_le_mul_of_nonneg_right hdiv (by norm_num)

/-- Witness for C9: a concrete download (block size 512, total size 2048,
five hook calls) reports a monotone sequence; with unknown size (-1)
nothing is reported. -/
theorem C9_progress_monotone_witness :
    ((-1 : Int) ≤ 0 ∧ reported_progress 512 (-1) 5 = []) ∧
    ((0 : Int) < 2048 ∧ (reported_progress 512 2048 5).Pairwise (· ≤ ·)) :=
  ⟨⟨by norm_num, (C9_progress_monotone 512 (-1) 5).1 (by norm_num)⟩,
   ⟨by norm_num, (C9_progress_monotone 512 2048 5).2 (by norm_num)⟩⟩

/-! ## Mount-loop lemmas -/

/-- Each loop iteration shows at most one prompt, so the number of
prompts is bounded by the number of attempt indices. -/
theorem mount_loop_prompts_le (env : UnlockEnv) :
    ∀ l : List Nat, (mount_loop env l).2.1 ≤ l.length := by
  intro l
  induction l with
  | nil => simp [mount_loop]
  | cons a rest ih =>
    simp only [mount_loop, List.length_cons]
    split
    · simp
    · split
      · simp
      · split
        · simp
        · simpa using Nat.succ_le_succ ih

/-- Every `cryptsetup open` call issued by the loop carries the
passphrase entered at one of the iterated attempt indices. -/
theorem mount_loop_calls_mem (env : UnlockEnv) :
    ∀ (l : List Nat) (c : UnlockCall), c ∈ (mount_loop env l).2.2 →
      ∃ i ∈ l, c = cryptsetup_open_call luks_file (env.entered i) := by
  intro l
  induction l with
  | nil => intro c hc; simp [mount_loop] at hc
  | cons a rest ih =>
    intro c hc
    simp only [mount_loop] at hc
    split at hc
    · simp at hc
    · split at hc
      · simp only [List.mem_singleton] at hc
        exact ⟨a, List.mem_cons_self a rest, hc⟩
      · split at hc
        · simp only [List.mem_singleton] at hc
          exact ⟨a, List.mem_cons_self a rest, hc⟩
        · rcases List.mem_cons.mp hc with h | h
          · exact ⟨a, List.mem_cons_self a rest, h⟩
          · obtain ⟨i, hi, hci⟩ := ih c h
            exact ⟨i, List.mem_cons_of_mem _ hi, hci⟩

/-- When every attempt is uninterrupted and wrong, the loop prompts
exactly three times, calls `cryptsetup open` three times, and fails. -/
theorem mount_all_wrong (env : UnlockEnv)
    (h : ∀ i, i < max_attempts →
      env.interrupted i = false ∧ env.accepts (env.entered i) = false) :
    mount_luks_volume env =
      (false, 3,
        [cryptsetup_open_call luks_file (env.entered 0),
         cryptsetup_open_call luks_file (env.entered 1),
         cryptsetup_open_call luks_file (env.entered 2)]) := by
  have h0 := h 0 (by norm_num [max_attempts])
  have h1 := h 1 (by norm_num [max_attempts])
  have h2 := h 2 (by norm_num [max_attempts])
  have hr : List.range max_attempts = [0, 1, 2] := rfl
  unfold mount_luks_volume
  rw [hr]
  simp [mount_loop, h0.1, h0.2, h1.1, h1.2, h2.1, h2.2, max_attempts]

/-! ## C6: exactly three passphrase attempts, then fail closed -/

/-- **C6.** The unlock loop never prompts a 4th time; when all three
attempts enter a wrong passphrase, `mount_luks_volume` prompts exactly
3 times, fails, and the whole session exits with status 1. -/
theorem C6_bounded_attempts (renv : RunEnv) :
    (mount_luks_volume renv.unlock).2.1 ≤ max_attempts ∧
    ((∀ i, i < max_attempts → renv.unlock.interrupted i = false ∧
        renv.unlock.accepts (renv.unlock.entered i) = false) →
      (mount_luks_volume renv.unlock).1 = false ∧
      (mount_luks_volume renv.unlock).2.1 = max_attempts ∧
      main_exit renv = 1) := by
  constructor
  · have := mount_loop_prompts_le renv.unlock (List.range max_attempts)
    simpa [mount_luks_volume] using this
  · intro h
    have hw := mount_all_wrong renv.unlock h
    refine ⟨by rw [hw], by rw [hw]; rfl, ?_⟩
    by_cases he : renv.euid = 0
    · cases hra : renv.ramdiskOk <;> cases hd : renv.downloadOk <;>
        cases ht : get_timer_selection renv.timerInputs <;>
        cases hs : renv.scriptWriteOk <;> cases hts : renv.timerStartOk <;>
          simp [main_exit, run, he, hra, hd, ht, hs, hts, hw]
    · simp [main_exit, run, he]

/-- Witness for C6: a session whose three passphrase entries are all
rejected prompts exactly 3 times and exits 1. -/
def c6_env : RunEnv :=
  { euid := 0, ramdiskOk := true, downloadOk := true, timerInputs := [some "1"],
    scriptWriteOk := true,
    unlock := { entered := fun _ => "wrong", accepts := fun _ => false,
                interrupted := fun _ => false, mountOk := true },
    timerStartOk := true, menuActs := [] }

theorem C6_bounded_attempts_witness :
    (mount_luks_volume c6_env.unlock).2.1 ≤ max_attempts ∧
    ((mount_luks_volume c6_env.unlock).1 = false ∧
      (mount_luks_volume c6_env.unlock).2.1 = max_attempts ∧
      main_exit c6_env = 1) :=
  ⟨(C6_bounded_attempts c6_env).1,
   (C6_bounded_attempts c6_env).2 (fun _ _ => ⟨rfl, rfl⟩)⟩

/-! ## C7: the passphrase travels only on standard input -/

/-- **C7.** Every `cryptsetup open` subprocess issued by the unlock loop
has the fixed argument vector `["cryptsetup", "open", luks_file,
"luks_token"]` — independent of any entered passphrase — and the
passphrase entered at that attempt is delivered solely as the process's
standard-input data. -/
theorem C7_passphrase_stdin_only (env : UnlockEnv) (c : UnlockCall)
    (hc : c ∈ (mount_luks_volume env).2.2) :
    c.argv = ["cryptsetup", "open", luks_file, "luks_token"] ∧
    ∃ i, i < max_attempts ∧ c.stdin_data = env.entered i ∧
      c = cryptsetup_open_call luks_file (env.entered i) := by
  obtain ⟨i, hi, hci⟩ := mount_loop_calls_mem env (List.range max_attempts) c hc
  subst hci
  exact ⟨rfl, i, List.mem_range.mp hi, rfl, rfl⟩

/-- Witness for C7: with passphrase "hunter2" accepted first try, the one
issued call has the fixed argv and "hunter2" only on stdin. -/
def c7_env : UnlockEnv :=
  { entered := fun _ => "hunter2", accepts := fun _ => true,
    interrupted := fun _ => false, mountOk := true }

theorem C7_passphrase_stdin_only_witness :
    cryptsetup_open_call luks_file "hunter2" ∈ (mount_luks_volume c7_env).2.2 ∧
    (cryptsetup_open_call luks_file "hunter2").argv
      = ["cryptsetup", "open", luks_file, "luks_token"] ∧
    (cryptsetup_open_call luks_file "hunter2").stdin_data = "hunter2" := by
  have heval : (mount_luks_volume c7_env).2.2
      = [cryptsetup_open_call luks_file "hunter2"] := rfl
  have hmem : cryptsetup_open_call luks_file "hunter2" ∈ (mount_luks_volume c7_env).2.2 := by
    rw [heval]; exact List.mem_singleton.mpr rfl
  exact ⟨hmem, (C7_passphrase_stdin_only c7_env _ hmem).1, rfl⟩

/-! ## C8: exit status discipline -/

/-- **C8.** The program exits 0 exactly when every pipeline step up to
the file menu succeeds (privileges present, RAM disk created, image
downloaded, a timer selected, destruct script written, volume unlocked
and mounted, timer process launched) — the menu itself always returns —
and exits 1 on every fatal step failure. -/
theorem C8_exit_status (env : RunEnv) :
    (main_exit env = 0 ∨ main_exit env = 1) ∧
    (main_exit env = 0 ↔
      (env.euid = 0 ∧ env.ramdiskOk = true ∧ env.downloadOk = true ∧
        (∃ t, get_timer_selection env.timerInputs = some t) ∧
        env.scriptWriteOk = true ∧ (mount_luks_volume env.unlock).1 = true ∧
        env.timerStartOk = true)) := by
  by_cases he : env.euid = 0
  · cases hra : env.ramdiskOk <;> cases hd : env.downloadOk <;>
      cases ht : get_timer_selection env.timerInputs <;>
      cases hs : env.scriptWriteOk <;> cases hm : (mount_luks_volume env.unlock).1 <;>
      cases hts : env.timerStartOk <;>
        simp [main_exit, run, he, hra, hd, ht, hs, hm, hts, display_file_menu_ok]
  · simp [main_exit, run, he]

/-- Witness for C8: an unprivileged invocation (euid 1000) exits 1. -/
def c8_env : RunEnv :=
  { euid := 1000, ramdiskOk := true, downloadOk := true, timerInputs := [some "1"],
    scriptWriteOk := true,
    unlock := { entered := fun _ => "pw", accepts := fun _ => true,
                interrupted := fun _ => false, mountOk := true },
    timerStartOk := true, menuActs := [] }

theorem C8_exit_status_witness : main_exit c8_env = 1 := by
  rcases (C8_exit_status c8_env).1 with h0 | h1
  · exact absurd ((C8_exit_status c8_env).2.mp h0).1 (by norm_num [c8_env])
  · exact h1

/-! ## C10: menu interrupt ends the session normally -/

/-- **C10.** A keyboard interrupt at the file-selection menu — after a
successful mount and destruct activation — is caught inside the menu
loop: the menu returns normally and the program exits with status 0. -/
theorem C10_menu_interrupt_completes (env : RunEnv)
    (hroot : env.euid = 0) (hram : env.ramdiskOk = true)
    (hdl : env.downloadOk = true)
    (ht : ∃ t, get_timer_selection env.timerInputs = some t)
    (hs : env.scriptWriteOk = true)
    (hm : (mount_luks_volume env.unlock).1 = true)
    (hts : env.timerStartOk = true)
    (hmenu : env.menuActs = MenuAct.interrupt :: env.menuActs.tail) :
    display_file_menu env.menuActs = Except.ok () ∧ main_exit env = 0 := by
  obtain ⟨t, ht⟩ := ht
  refine ⟨by rw [hmenu]; rfl, ?_⟩
  simp [main_exit, run, hroot, hram, hdl, ht, hs, hm, hts, display_file_menu_ok]

/-- Witness for C10: a fully successful session interrupted at the menu
exits 0. -/
def c10_env : RunEnv :=
  { euid := 0, ramdiskOk := true, downloadOk := true, timerInputs := [some "1"],
    scriptWriteOk := true,
    unlock := { entered := fun _ => "pw", accepts := fun _ => true,
                interrupted := fun _ => false, mountOk := true },
    timerStartOk := true, menuActs := [MenuAct.interrupt] }

theorem C10_menu_interrupt_completes_witness :
    display_file_menu c10_env.menuActs = Except.ok () ∧ main_exit c10_env = 0 :=
  C10_menu_interrupt_completes c10_env rfl rfl rfl ⟨60, by decide⟩ rfl rfl rfl rfl

/-! ## Cleanup lemmas -/

/-- A normal (failure-free) run of `cleanup_all` ends with nothing
mounted, no mapper entry, no image, and no store directory; the store
contents survive only when the tmpfs was never mounted (files that only
existed on the mounted tmpfs are gone). -/
theorem cleanup_state_eq (s : SysState) :
    cleanup_state s =
      { volumeMounted := false, mapperOpen := false, imageExists := false,
        storeMounted := false, storeDirExists := false,
        storeFiles := if s.storeMounted then [] else s.storeFiles } := by
  obtain ⟨vm, mo, ie, sm, sd, fs⟩ := s
  cases vm <;> cases mo <;> cases ie <;> cases sm <;> cases sd <;>
    simp [cleanup_state, cleanup_all, cleanup_script, execCmds, execCmd]

/-- On an already-clean state the cleanup function finds nothing to do:
its event trace is empty. -/
theorem cleanup_trace_of_clean (fs : List String) :
    cleanup_trace
      { volumeMounted := false, mapperOpen := false, imageExists := false,
        storeMounted := false, storeDirExists := false, storeFiles := fs } = [] := by
  simp [cleanup_trace, cleanup_all, cleanup_script, execCmds, execCmd]

/-- Shredding the RAM-disk files leaves the overwrite-scan state
unchanged: those events never delete the image nor count as an image
overwrite. -/
theorem overwrite_scan_store_chunk (seen : Bool) (files : List String) (b : Nat)
    (rest : List FsEvent) :
    overwrite_scan seen
        (files.map (fun n => FsEvent.overwriteStoreFile n b) ++ rest)
      = overwrite_scan seen rest := by
  induction files with
  | nil => rfl
  | cons f fs ih => simp [overwrite_scan, full_image_overwrite, ih]

/-! ## C4: cleanup is idempotent -/

/-- **C4.** Running the cleanup action twice leaves exactly the state of
a single run, the second run performs no operation at all (empty event
trace — a no-op, not an error), and the end state has no mount, no
mapper entry, no image file, and no store directory. -/
theorem C4_cleanup_idempotent (s : SysState) :
    cleanup_state (cleanup_state s) = cleanup_state s ∧
    cleanup_trace (cleanup_state s) = [] ∧
    (cleanup_state s).volumeMounted = false ∧
    (cleanup_state s).mapperOpen = false ∧
    (cleanup_state s).imageExists = false ∧
    (cleanup_state s).storeMounted = false ∧
    (cleanup_state s).storeDirExists = false := by
  constructor
  · rw [cleanup_state_eq s, cleanup_state_eq]
    simp
  · rw [cleanup_state_eq s]
    exact ⟨cleanup_trace_of_clean _, rfl, rfl, rfl, rfl, rfl⟩

/-! ## C1: overwrite before delete -/

/-- **C1 (amended: destruct-unit path).** In every trace of the destruct
unit's cleanup action, any deletion of the encrypted image is preceded by
a full-length (2 MiB) random overwrite of the image. -/
theorem C1_cleanup_overwrites_before_delete (s : SysState) :
    overwrite_precedes_delete (cleanup_trace s) := by
  obtain ⟨vm, mo, ie, sm, sd, fs⟩ := s
  cases vm <;> cases mo <;> cases ie <;> cases sm <;> cases sd <;>
    simp [cleanup_trace, cleanup_all, cleanup_script, execCmds, execCmd,
      overwrite_precedes_delete, overwrite_scan, full_image_overwrite,
      overwrite_scan_store_chunk, dd_image_bytes, luks_image_size_bytes]

/-- **C1 (counterexample to the claim as stated).** The manual cleanup
path `cleanup_on_exit` (lines 273-274) deletes the encrypted image with a
plain `os.remove`: starting from a state where only the image exists, its
trace is exactly one `deleteImage` event with no overwrite before it. -/
theorem C1_counterexample_plain_delete :
    (cleanup_on_exit
        { volumeMounted := false, mapperOpen := false, imageExists := true,
          storeMounted := false, storeDirExists := false, storeFiles := [] }).2
      = [FsEvent.deleteImage] ∧
    ¬ overwrite_precedes_delete
        (cleanup_on_exit
            { volumeMounted := false, mapperOpen := false, imageExists := true,
              storeMounted := false, storeDirExists := false, storeFiles := [] }).2 :=
  ⟨rfl, by decide⟩

/-! ## C5: fixed step order, failure-tolerant sequencing -/

/-- The position of each cleanup stanza in the claim's five-step order
(step 5 covers both `umount "$RAMDISK"` and `rmdir "$RAMDISK"`). -/
def cmdStep : Cmd → Nat
  | Cmd.umountVolumeIfMounted => 1
  | Cmd.closeMapperIfExists => 2
  | Cmd.shredImageIfExists => 3
  | Cmd.shredStoreFiles => 4
  | Cmd.umountStoreCmd => 5
  | Cmd.rmdirStoreCmd => 5

/-- The step an observable event belongs to. -/
def eventStep : FsEvent → Nat
  | FsEvent.unmountVolume => 1
  | FsEvent.closeMapper => 2
  | FsEvent.overwriteImage _ => 3
  | FsEvent.deleteImage => 3
  | FsEvent.overwriteStoreFile _ _ => 4
  | FsEvent.unmountStore => 5
  | FsEvent.removeStoreDir => 5

/-- Every event emitted by one stanza belongs to that stanza's step. -/
theorem execCmd_eventStep (fail : Cmd → Bool) (s : SysState) (c : Cmd) :
    ∀ e ∈ (execCmd fail s c).2, eventStep e = cmdStep c := by
  intro e he
  cases c
  case umountVolumeIfMounted =>
    simp only [execCmd] at he
    split at he
    · simp at he
    · split at he
      · rw [List.mem_singleton] at he; subst he; rfl
      · simp at he
  case closeMapperIfExists =>
    simp only [execCmd] at he
    split at he
    · simp at he
    · split at he
      · rw [List.mem_singleton] at he; subst he; rfl
      · simp at he
  case shredImageIfExists =>
    simp only [execCmd] at he
    split at he
    · simp at he
    · split at he
      · rcases List.mem_cons.mp he with rfl | he
        · rfl
        · rw [List.mem_singleton] at he; subst he; rfl
      · simp at he
  case shredStoreFiles =>
    simp only [execCmd] at he
    split at he
    · simp at he
    · split at he
      · rw [List.mem_map] at he
        obtain ⟨n, _hn, rfl⟩ := he
        rfl
      · simp at he
  case umountStoreCmd =>
    simp only [execCmd] at he
    split at he
    · simp at he
    · split at he
      · rw [List.mem_singleton] at he; subst he; rfl
      · simp at he
  case rmdirStoreCmd =>
    simp only [execCmd] at he
    split at he
    · simp at he
    · split at he
      · rw [List.mem_singleton] at he; subst he; rfl
      · simp at he

/-- Every event of a stanza sequence belongs to some listed stanza. -/
theorem execCmds_mem_step (fail : Cmd → Bool) :
    ∀ (cs : List Cmd) (s : SysState), ∀ e ∈ (execCmds fail s cs).2,
      ∃ c ∈ cs, eventStep e = cmdStep c := by
  intro cs
  induction cs with
  | nil => intro s e he; simp [execCmds] at he
  | cons c rest ih =>
    intro s e he
    simp only [execCmds] at he
    rcases List.mem_append.mp he with h | h
    · exact ⟨c, List.mem_cons_self c rest, execCmd_eventStep fail s c e h⟩
    · obtain ⟨c', hc', hs'⟩ := ih _ e h
      exact ⟨c', List.mem_cons_of_mem _ hc', hs'⟩

/-- Sequential execution of stanzas listed in non-decreasing step order
yields an event trace in non-decreasing step order, whatever fails. -/
theorem execCmds_pairwise (fail : Cmd → Bool) :
    ∀ (cs : List Cmd) (s : SysState),
      cs.Pairwise (fun a b => cmdStep a ≤ cmdStep b) →
      ((execCmds fail s cs).2).Pairwise (fun a b => eventStep a ≤ eventStep b) := by
  intro cs
  induction cs with
  | nil => intro s _; simp [execCmds]
  | cons c rest ih =>
    intro s hp
    rw [List.pairwise_cons] at hp
    simp only [execCmds]
    refine List.pairwise_append.mpr ⟨?_, ih _ hp.2, ?_⟩
    · refine List.pairwise_of_forall_mem_list ?_
      intro a ha b hb
      rw [execCmd_eventStep fail s c a ha, execCmd_eventStep fail s c b hb]
    · intro a ha b hb
      rw [execCmd_eventStep fail s c a ha]
      obtain ⟨c', hc', hb'⟩ := execCmds_mem_step fail rest _ b hb
      rw [hb']
      exact hp.1 c' hc'

/-- Only the shred-image stanza touches the image-exists flag. -/
theorem execCmd_imageExists_of_ne (fail : Cmd → Bool) (s : SysState) (c : Cmd)
    (hc : c ≠ Cmd.shredImageIfExists) :
    ((execCmd fail s c).1).imageExists = s.imageExists := by
  cases c
  case shredImageIfExists => exact absurd rfl hc
  all_goals
    simp only [execCmd]
    split
    · rfl
    · split <;> rfl

/-- A non-failed shred-image stanza always leaves the image absent. -/
theorem execCmd_shredImage (fail : Cmd → Bool) (s : SysState)
    (hf : fail Cmd.shredImageIfExists = false) :
    ((execCmd fail s Cmd.shredImageIfExists).1).imageExists = false := by
  unfold execCmd
  rw [hf]
  by_cases h : s.imageExists <;> simp [h]

/-- Only the unmount-store stanza touches the store-mounted flag. -/
theorem execCmd_storeMounted_of_ne (fail : Cmd → Bool) (s : SysState) (c : Cmd)
    (hc : c ≠ Cmd.umountStoreCmd) :
    ((execCmd fail s c).1).storeMounted = s.storeMounted := by
  cases c
  case umountStoreCmd => exact absurd rfl hc
  all_goals
    simp only [execCmd]
    split
    · rfl
    · split <;> rfl

/-- A non-failed `umount "$RAMDISK"` always leaves the store unmounted. -/
theorem execCmd_umountStore (fail : Cmd → Bool) (s : SysState)
    (hf : fail Cmd.umountStoreCmd = false) :
    ((execCmd fail s Cmd.umountStoreCmd).1).storeMounted = false := by
  unfold execCmd
  rw [hf]
  by_cases h : s.storeMounted <;> simp [h]

/-- Only the rmdir stanza touches the store-directory flag. -/
theorem execCmd_storeDirExists_of_ne (fail : Cmd → Bool) (s : SysState) (c : Cmd)
    (hc : c ≠ Cmd.rmdirStoreCmd) :
    ((execCmd fail s c).1).storeDirExists = s.storeDirExists := by
  cases c
  case rmdirStoreCmd => exact absurd rfl hc
  all_goals
    simp only [execCmd]
    split
    · rfl
    · split <;> rfl

/-- A non-failed `rmdir "$RAMDISK"` on an unmounted store always leaves
the directory absent. -/
theorem execCmd_rmdirStore (fail : Cmd → Bool) (s : SysState)
    (hf : fail Cmd.rmdirStoreCmd = false) (hm : s.storeMounted = false) :
    ((execCmd fail s Cmd.rmdirStoreCmd).1).storeDirExists = false := by
  unfold execCmd
  rw [hf]
  by_cases h : s.storeDirExists <;> simp [h, hm]

/-- **C5.** Under any per-stanza failure oracle, the cleanup trace keeps
the fixed step order (unmount volume, close mapper, shred image, shred
store files, unmount store and remove its directory), and a failure of
any single stanza never aborts the rest: whatever other stanzas fail, a
non-failed shred-image stanza still removes the image, and non-failed
unmount-store/rmdir stanzas still remove the store. -/
theorem C5_cleanup_order_tolerant (fail : Cmd → Bool) (s : SysState) :
    ((cleanup_all fail s).2).Pairwise (fun a b => eventStep a ≤ eventStep b) ∧
    (fail Cmd.shredImageIfExists = false →
      ((cleanup_all fail s).1).imageExists = false) ∧
    (fail Cmd.umountStoreCmd = false → fail Cmd.rmdirStoreCmd = false →
      ((cleanup_all fail s).1).storeMounted = false ∧
      ((cleanup_all fail s).1).storeDirExists = false) := by
  refine ⟨execCmds_pairwise fail cleanup_script s (by decide), ?_, ?_⟩
  · intro hf
    simp only [cleanup_all, cleanup_script, execCmds]
    rw [execCmd_imageExists_of_ne fail _ Cmd.rmdirStoreCmd (by simp),
      execCmd_imageExists_of_ne fail _ Cmd.umountStoreCmd (by simp),
      execCmd_imageExists_of_ne fail _ Cmd.shredStoreFiles (by simp)]
    exact execCmd_shredImage fail _ hf
  · intro hf₁ hf₂
    simp only [cleanup_all, cleanup_script, execCmds]
    have hm : ((execCmd fail
        (execCmd fail
          (execCmd fail
            (execCmd fail
              (execCmd fail s Cmd.umountVolumeIfMounted).1
              Cmd.closeMapperIfExists).1
            Cmd.shredImageIfExists).1
          Cmd.shredStoreFiles).1
        Cmd.umountStoreCmd).1).storeMounted = false :=
      execCmd_umountStore fail _ hf₁
    constructor
    · rw [execCmd_storeMounted_of_ne fail _ Cmd.rmdirStoreCmd (by simp)]
      exact hm
    · exact execCmd_rmdirStore fail _ hf₂ hm

/-- Witness for C5: with the first stanza (unmount volume) failing, the
image is still shredded and the store still torn down. -/
def c5_fail : Cmd → Bool := fun c => decide (c = Cmd.umountVolumeIfMounted)

def c5_state : SysState :=
  { volumeMounted := true, mapperOpen := true, imageExists := true,
    storeMounted := true, storeDirExists := true, storeFiles := ["Notes.txt"] }

theorem C5_cleanup_order_tolerant_witness :
    c5_fail Cmd.shredImageIfExists = false ∧
    c5_fail Cmd.umountStoreCmd = false ∧ c5_fail Cmd.rmdirStoreCmd = false ∧
    ((cleanup_all c5_fail c5_state).1).imageExists = false ∧
    ((cleanup_all c5_fail c5_state).1).storeMounted = false ∧
    ((cleanup_all c5_fail c5_state).1).storeDirExists = false :=
  ⟨rfl, rfl, rfl,
   (C5_cleanup_order_tolerant c5_fail c5_state).2.1 rfl,
   ((C5_cleanup_order_tolerant c5_fail c5_state).2.2 rfl rfl).1,
   ((C5_cleanup_order_tolerant c5_fail c5_state).2.2 rfl rfl).2⟩

/-! ## C3: independently scheduled failsafe -/

/-- **C3.** The built destruct unit schedules both triggers
unconditionally — the trigger list is exactly primary then failsafe,
regardless of anything else — and if the primary trigger's process is
killed (only trigger index 1 stays alive) the failsafe alone still
performs the full cleanup once its deadline has passed. -/
theorem C3_failsafe_fires_independently (timer_seconds now : Nat) (s : SysState)
    (h : failsafe_timer timer_seconds ≤ now) :
    destruct_triggers timer_seconds
        = [timer_seconds, failsafe_timer timer_seconds] ∧
    run_destruct_unit timer_seconds (fun i => i == 1) now s = cleanup_state s := by
  refine ⟨rfl, ?_⟩
  simp [run_destruct_unit, destruct_triggers, List.enum, List.enumFrom,
    List.filter, h]

def c3_state : SysState :=
  { volumeMounted := true, mapperOpen := true, imageExists := true,
    storeMounted := true, storeDirExists := true, storeFiles := [] }

/-- Witness for C3 at the 60-second menu timer, observed at t = 240 s. -/
theorem C3_failsafe_fires_independently_witness :
    failsafe_timer 60 ≤ 240 ∧
    (destruct_triggers 60 = [60, failsafe_timer 60] ∧
      run_destruct_unit 60 (fun i => i == 1) 240 c3_state = cleanup_state c3_state) :=
  ⟨by norm_num [failsafe_timer],
   C3_failsafe_fires_independently 60 240 c3_state (by norm_num [failsafe_timer])⟩

end LUKSToken
